import Mathlib

/-!
Verification of the rust_edi message-queue service (rqs).

The repository source under verification is the gRPC gateway
(src/rqs/src/queue.rs): the two handlers new_queue and delete_queue of the
QueueService, which translate RPC requests into engine events and engine
results into response payloads.  The queue engine itself (the RQS struct
with handle_event, revive_from_log, get_queues; the event-sourced store and
the append-only log) is not part of the visible source: it is modelled here
from the specification, per the spec sections on the Store state machine,
the Engine and the Event Log.

Machine integers of the source (the visibility_timeout field of the
protobuf request, timestamps) are modelled as Nat; overflow plays no role
in any claim.
-/

/-- Modelled from the spec: the lease state of a message, section 3.
A message is Available, or InFlight with a visibility deadline.  A deleted
message is purged from the queue, so no Deleted constructor is needed. -/
inductive MessageState
  | available
  | inFlight (deadline : Nat)
deriving DecidableEq, Repr

/-- Modelled from the spec: a message, section 3.  The receipt_handle is
delivery-scoped: it is reassigned each time the message goes InFlight.
Messages created by MessageSent carry the placeholder handle 0, which is
never issued as a live handle (live handles start at 1). -/
structure Message where
  receipt_handle : Nat
  body : String
  state : MessageState
deriving DecidableEq, Repr

/-- Modelled from the spec: a queue, section 3: a visibility timeout fixed
at creation and an ordered collection of messages (arrival order). -/
structure Queue where
  visibility_timeout : Nat
  messages : List Message
deriving DecidableEq, Repr

/-- Modelled from the spec: the in-memory store, section 4.2: the mapping
from queue id to queue contents, kept as an association list in insertion
order (the observed get_queues order of the tests is insertion order),
plus the counter from which fresh receipt handles are drawn. -/
structure StoreState where
  queues : List (String × Queue)
  nextHandle : Nat
deriving DecidableEq, Repr

/-- The event enum rqs_types::RQSEvent.  The two variants used by the
visible gateway source carry exactly the fields the handlers pass
(queue_id, visibility_timeout); the remaining variants are modelled from
the spec, section 3. -/
inductive RQSEvent
  | QueueCreated (queue_id : String) (visibility_timeout : Nat)
  | QueueDeleted (queue_id : String)
  | MessageSent (queue_id : String) (body : String)
  | MessageReceived (queue_id : String) (max_messages : Nat)
  | MessageDeleted (queue_id : String) (receipt_handle : Nat)
  | MessageVisibilityExpired (queue_id : String) (receipt_handle : Nat)
deriving DecidableEq, Repr

/-- Modelled from the spec: the validation error taxonomy of section 7. -/
inductive EngineError
  | QueueAlreadyExists
  | QueueNotFound
  | ReceiptHandleInvalid
deriving DecidableEq, Repr

/-- Modelled from the spec: the observable result of a successful apply;
MessageReceived is the one event that surfaces data (the delivered
receipt handles and bodies), section 4.2. -/
inductive Outcome
  | unit
  | messages (received : List (Nat × String))
deriving DecidableEq, Repr

/-- Look a queue up by id in the store association list. -/
def lookupQueue : List (String × Queue) → String → Option Queue
  | [], _ => none
  | (k, q) :: rest, id => if k = id then some q else lookupQueue rest id

/-- Remove a queue by id from the store association list. -/
def removeQueue : List (String × Queue) → String → List (String × Queue)
  | [], _ => []
  | (k, q) :: rest, id =>
    if k = id then rest else (k, q) :: removeQueue rest id

/-- Replace the queue stored under an id, leaving other entries alone. -/
def setQueue : List (String × Queue) → String → Queue → List (String × Queue)
  | [], _, _ => []
  | (k, q) :: rest, id, q2 =>
    if k = id then (k, q2) :: rest else (k, q) :: setQueue rest id q2

/-- Modelled from the spec: the selection step of MessageReceived,
section 4.2: walk the messages in FIFO order, lease up to maxm Available
ones, giving each a fresh handle (consecutive, starting at h) and the
given deadline.  Returns the updated messages, the delivered
(handle, body) pairs, and the next fresh handle. -/
def receiveFrom : List Message → Nat → Nat → Nat →
    List Message × List (Nat × String) × Nat
  | [], _, h, _ => ([], [], h)
  | m :: rest, maxm, h, d =>
    match maxm with
    | 0 => (m :: rest, [], h)
    | k + 1 =>
      match m.state with
      | .available =>
        let r := receiveFrom rest k (h + 1) d
        (⟨h, m.body, .inFlight d⟩ :: r.1, (h, m.body) :: r.2.1, r.2.2)
      | .inFlight _ =>
        let r := receiveFrom rest (k + 1) h d
        (m :: r.1, r.2.1, r.2.2)

/-- Modelled from the spec: the purge step of MessageDeleted, section 4.2:
a message may be purged only through the receipt handle of its current,
unexpired InFlight lease; any other handle is invalid (none). -/
def deleteMessageIn : List Message → Nat → Nat → Option (List Message)
  | [], _, _ => none
  | m :: rest, rh, ts =>
    if m.receipt_handle = rh then
      match m.state with
      | .inFlight d => if ts ≤ d then some rest else none
      | .available => none
    else
      (deleteMessageIn rest rh ts).map (fun rest2 => m :: rest2)

/-- Modelled from the spec: MessageVisibilityExpired, section 4.2: revert
the message holding the given handle to Available in place; a no-op when
no message is InFlight under that handle (idempotent by design). -/
def expireMessageIn : List Message → Nat → List Message
  | [], _ => []
  | m :: rest, rh =>
    match m.state with
    | .inFlight _ =>
      if m.receipt_handle = rh then ⟨m.receipt_handle, m.body, .available⟩ :: rest
      else m :: expireMessageIn rest rh
    | .available => m :: expireMessageIn rest rh

/-- Modelled from the spec: the pure transition function of the Store,
section 4.2, one arm per event variant; ts is the timestamp of the log
entry carrying the event, used for lease deadlines. -/
def apply (s : StoreState) (event : RQSEvent) (ts : Nat) :
    Except EngineError (StoreState × Outcome) :=
  match event with
  | .QueueCreated qid vt =>
    match lookupQueue s.queues qid with
    | some _ => .error .QueueAlreadyExists
    | none => .ok (⟨s.queues ++ [(qid, ⟨vt, []⟩)], s.nextHandle⟩, .unit)
  | .QueueDeleted qid =>
    match lookupQueue s.queues qid with
    | none => .error .QueueNotFound
    | some _ => .ok (⟨removeQueue s.queues qid, s.nextHandle⟩, .unit)
  | .MessageSent qid body =>
    match lookupQueue s.queues qid with
    | none => .error .QueueNotFound
    | some q =>
      .ok (⟨setQueue s.queues qid
              ⟨q.visibility_timeout, q.messages ++ [⟨0, body, .available⟩]⟩,
            s.nextHandle⟩, .unit)
  | .MessageReceived qid maxm =>
    match lookupQueue s.queues qid with
    | none => .error .QueueNotFound
    | some q =>
      let r := receiveFrom q.messages maxm s.nextHandle (ts + q.visibility_timeout)
      .ok (⟨setQueue s.queues qid ⟨q.visibility_timeout, r.1⟩, r.2.2⟩,
           .messages r.2.1)
  | .MessageDeleted qid rh =>
    match lookupQueue s.queues qid with
    | none => .error .QueueNotFound
    | some q =>
      match deleteMessageIn q.messages rh ts with
      | none => .error .ReceiptHandleInvalid
      | some msgs =>
        .ok (⟨setQueue s.queues qid ⟨q.visibility_timeout, msgs⟩,
              s.nextHandle⟩, .unit)
  | .MessageVisibilityExpired qid rh =>
    match lookupQueue s.queues qid with
    | none => .ok (s, .unit)
    | some q =>
      .ok (⟨setQueue s.queues qid
              ⟨q.visibility_timeout, expireMessageIn q.messages rh⟩,
            s.nextHandle⟩, .unit)

/-- Modelled from the spec: an Event Log entry, section 3: sequence
number, the event, and a timestamp. -/
structure LogEntry where
  seq : Nat
  event : RQSEvent
  timestamp : Nat
deriving DecidableEq, Repr

/-- Modelled from the spec: the Engine (struct RQS), section 4.3: it owns
the in-memory store and the append-only log. -/
structure RQS where
  state : StoreState
  log : List LogEntry
deriving DecidableEq, Repr

/-- Modelled from the spec: a fresh engine with empty store and empty log
(live receipt handles start at 1; 0 is the placeholder of unsent
deliveries). -/
def RQS.new : RQS := ⟨⟨[], 1⟩, []⟩

/-- Modelled from the spec: handle_event, section 4.3: apply the event to
the store; on success append it to the log and return the outcome; on
failure leave the engine untouched and return the typed error. -/
def RQS.handle_event (rqs : RQS) (event : RQSEvent) (ts : Nat) :
    RQS × Except EngineError Outcome :=
  match apply rqs.state event ts with
  | .error e => (rqs, .error e)
  | .ok (s2, out) =>
    (⟨s2, rqs.log ++ [⟨rqs.log.length, event, ts⟩]⟩, .ok out)

/-- Modelled from the spec: the replay step of recovery, section 4.3:
rebuild the store from empty by running every log entry through apply in
sequence order, not re-appending (a failing entry leaves state as is). -/
def replayState (log : List LogEntry) : StoreState :=
  log.foldl
    (fun s entry =>
      match apply s entry.event entry.timestamp with
      | .ok r => r.1
      | .error _ => s)
    ⟨[], 1⟩

/-- Modelled from the spec: revive_from_log, section 4.3: reset the store
and replay the given durable log. -/
def RQS.revive_from_log (log : List LogEntry) : RQS :=
  ⟨replayState log, log⟩

/-- Modelled from the spec: get_queues, section 4.3: a read-only snapshot
of the current queues. -/
def RQS.get_queues (rqs : RQS) : List (String × Queue) := rqs.state.queues

/-- The protobuf request of the new_queue RPC (queue.proto NewQueueRequest
as used at queue.rs lines 27 to 29). -/
structure NewQueueRequest where
  queue_id : String
  visibility_timeout : Nat
deriving DecidableEq, Repr

/-- The protobuf response of the new_queue RPC: success flag plus data
string (queue.rs lines 36 to 43). -/
structure NewQueueResponse where
  success : Bool
  data : String
deriving DecidableEq, Repr

/-- The protobuf request of the delete_queue RPC (queue.rs line 52). -/
structure DeleteQueueRequest where
  queue_id : String
deriving DecidableEq, Repr

/-- The protobuf response of the delete_queue RPC (queue.rs lines 59 to 66). -/
structure DeleteQueueResponse where
  success : Bool
  data : String
deriving DecidableEq, Repr

/-- The gRPC transport error type (tonic Status).  The visible handlers
never construct one; a single placeholder constructor stands for every
possible status. -/
inductive Status
  | internal
deriving DecidableEq, Repr

/-- Modelled from the spec: the human-readable rendering of an
EngineError interpolated by format in the handlers; the Display
implementation lives in the unmodelled rqs_types module, so the exact
strings are representative, injective per error kind. -/
def errDisplay : EngineError → String
  | .QueueAlreadyExists => "Queue already exists"
  | .QueueNotFound => "Queue not found"
  | .ReceiptHandleInvalid => "Receipt handle invalid"

/-- The response construction of new_queue, queue.rs lines 35 to 44: the
match on the handle_event result. -/
def respondNewQueue : Except EngineError Outcome → NewQueueResponse
  | .ok _ => ⟨true, "Successfully created queue"⟩
  | .error e => ⟨false, "Failed to create queue. Failed with error: " ++ errDisplay e⟩

/-- The response construction of delete_queue, queue.rs lines 58 to 67:
the match on the handle_event result.  Note the source sets success to
true in BOTH arms (queue.rs line 64), including the error arm. -/
def respondDeleteQueue : Except EngineError Outcome → DeleteQueueResponse
  | .ok _ => ⟨true, "Successfully deleted queue"⟩
  | .error e => ⟨true, "Failed to delete queue. Failed with error: " ++ errDisplay e⟩

/-- The new_queue handler, queue.rs lines 23 to 46.  The engine argument
is the content of the locked GLOBAL_DATA handle; the handler extracts
queue_id and visibility_timeout from the request, performs the single
handle_event call with RQSEvent::QueueCreated, and wraps the response in
Ok at the transport level. -/
def new_queue (rqs : RQS) (request : NewQueueRequest) (ts : Nat) :
    Except Status (RQS × NewQueueResponse) :=
  let queue_id := request.queue_id
  let visibility_timeout := request.visibility_timeout
  let r := rqs.handle_event (.QueueCreated queue_id visibility_timeout) ts
  .ok (r.1, respondNewQueue r.2)

/-- The delete_queue handler, queue.rs lines 48 to 69: extracts queue_id,
performs the single handle_event call with RQSEvent::QueueDeleted, and
wraps the response in Ok at the transport level. -/
def delete_queue (rqs : RQS) (request : DeleteQueueRequest) (ts : Nat) :
    Except Status (RQS × DeleteQueueResponse) :=
  let queue_id := request.queue_id
  let r := rqs.handle_event (.QueueDeleted queue_id) ts
  .ok (r.1, respondDeleteQueue r.2)

/-- Run a sequence of timestamped events through handle_event, keeping the
engine and dropping the per-event results (the live run of a scenario). -/
def runEvents (rqs : RQS) (l : List (RQSEvent × Nat)) : RQS :=
  l.foldl (fun r p => (r.handle_event p.1 p.2).1) rqs

/-- A call a gateway task makes against the shared engine while holding
the GLOBAL_DATA lock: one of the two visible handlers, or the get_queues
read used by the status path and the tests. -/
inductive GatewayCall
  | newQueue (request : NewQueueRequest)
  | deleteQueue (request : DeleteQueueRequest)
  | getQueues
deriving DecidableEq, Repr

/-- The engine transformation a gateway call performs inside its critical
section; a read leaves the engine unchanged. -/
def callEffect (rqs : RQS) : GatewayCall → Nat → RQS
  | .newQueue request, t =>
    match new_queue rqs request t with
    | .ok p => p.1
    | .error _ => rqs
  | .deleteQueue request, t =>
    match delete_queue rqs request t with
    | .ok p => p.1
    | .error _ => rqs
  | .getQueues, _ => rqs

/-- The handle_event result a gateway call observes inside its critical
section (none for the pure read). -/
def callResult (rqs : RQS) : GatewayCall → Nat → Option (Except EngineError Outcome)
  | .newQueue request, t =>
    some (rqs.handle_event (.QueueCreated request.queue_id request.visibility_timeout) t).2
  | .deleteQueue request, t =>
    some (rqs.handle_event (.QueueDeleted request.queue_id) t).2
  | .getQueues, _ => none

/-- Where a gateway task stands: before the lock, holding the lock (its
handle_event or get_queues is the one executing), or done. -/
inductive Phase
  | idle
  | locked
  | finished
deriving DecidableEq, Repr

/-- The shared-memory state of n concurrent gateway tasks: the owner of
the GLOBAL_DATA mutex, the phase of each task, the engine behind the
mutex, the order in which tasks ran their critical sections (ghost), and
the handle_event result each completed task observed (ghost). -/
structure SysState (n : Nat) where
  lockOwner : Option (Fin n)
  phase : Fin n → Phase
  rqs : RQS
  done : List (Fin n)
  res : Fin n → Option (Except EngineError Outcome)

/-- All n tasks waiting, lock free, fresh engine. -/
def sysInit (n : Nat) : SysState n :=
  ⟨none, fun _ => .idle, RQS.new, [], fun _ => none⟩

/-- One interleaving step of the concurrent gateway: a task acquires the
free mutex (queue.rs lines 30 to 32 and 53 to 55), or the lock holder runs
its call against the engine and releases the mutex (the guard is dropped
at the end of the handler statement, queue.rs lines 30 to 34 and 53 to
57). -/
inductive Step {n : Nat} (act : Fin n → GatewayCall) (ts : Fin n → Nat) :
    SysState n → SysState n → Prop
  | acquire (i : Fin n) (s : SysState n)
      (hfree : s.lockOwner = none) (hidle : s.phase i = .idle) :
      Step act ts s
        ⟨some i, Function.update s.phase i .locked, s.rqs, s.done, s.res⟩
  | crit (i : Fin n) (s : SysState n)
      (hown : s.lockOwner = some i) (hlocked : s.phase i = .locked) :
      Step act ts s
        ⟨none, Function.update s.phase i .finished,
         callEffect s.rqs (act i) (ts i), s.done ++ [i],
         Function.update s.res i (callResult s.rqs (act i) (ts i))⟩

/-- The states a system of n gateway tasks can reach from the fresh
start under any interleaving. -/
def Reachable {n : Nat} (act : Fin n → GatewayCall) (ts : Fin n → Nat)
    (s : SysState n) : Prop :=
  Relation.ReflTransGen (Step act ts) (sysInit n) s

/-- The seeded concurrent scenario of the tests: two tasks creating
queue_1 and queue_2 with visibility timeout 5. -/
def c7Rq : Fin 2 → NewQueueRequest :=
  fun i => if i = 0 then ⟨"queue_1", 5⟩ else ⟨"queue_2", 5⟩

/-- The calls of the seeded scenario. -/
def c7Act : Fin 2 → GatewayCall := fun i => .newQueue (c7Rq i)

/-- All timestamps of the seeded scenario. -/
def c7Ts : Fin 2 → Nat := fun _ => 0

/-- Start of the seeded scenario run. -/
def c7S0 : SysState 2 := sysInit 2

/-- Task 0 has acquired the mutex. -/
def c7S1 : SysState 2 :=
  ⟨some 0, Function.update c7S0.phase 0 .locked, c7S0.rqs, c7S0.done, c7S0.res⟩

/-- Task 0 has created queue_1 and released the mutex. -/
def c7S2 : SysState 2 :=
  ⟨none, Function.update c7S1.phase 0 .finished,
   callEffect c7S1.rqs (c7Act 0) (c7Ts 0), c7S1.done ++ [0],
   Function.update c7S1.res 0 (callResult c7S1.rqs (c7Act 0) (c7Ts 0))⟩

/-- Task 1 has acquired the mutex. -/
def c7S3 : SysState 2 :=
  ⟨some 1, Function.update c7S2.phase 1 .locked, c7S2.rqs, c7S2.done, c7S2.res⟩

/-- Task 1 has created queue_2 and released the mutex: the complete run. -/
def c7S4 : SysState 2 :=
  ⟨none, Function.update c7S3.phase 1 .finished,
   callEffect c7S3.rqs (c7Act 1) (c7Ts 1), c7S3.done ++ [1],
   Function.update c7S3.res 1 (callResult c7S3.rqs (c7Act 1) (c7Ts 1))⟩

/-- An engine holding the single queue queue_1, used as a concrete state
with a pre-existing queue. -/
def c6Rqs : RQS := (RQS.new.handle_event (.QueueCreated "queue_1" 5) 0).1

theorem lookupQueue_eq_none (qs : List (String × Queue)) (qid : String) :
    lookupQueue qs qid = none ↔ qid ∉ qs.map Prod.fst := by
  induction qs with
  | nil => simp [lookupQueue]
  | cons p rest ih =>
    obtain ⟨k, q⟩ := p
    by_cases hk : k = qid
    · subst hk; simp [lookupQueue]
    · simp [lookupQueue, hk, ih, Ne.symm hk]

theorem handle_event_created_of_none (rqs : RQS) (qid : String) (vt t : Nat)
    (h : lookupQueue rqs.state.queues qid = none) :
    rqs.handle_event (.QueueCreated qid vt) t =
      (⟨⟨rqs.state.queues ++ [(qid, ⟨vt, []⟩)], rqs.state.nextHandle⟩,
        rqs.log ++ [⟨rqs.log.length, .QueueCreated qid vt, t⟩]⟩, .ok .unit) := by
  simp [RQS.handle_event, apply, h]

theorem handle_event_created_of_some (rqs : RQS) (qid : String) (vt t : Nat)
    (q : Queue) (h : lookupQueue rqs.state.queues qid = some q) :
    rqs.handle_event (.QueueCreated qid vt) t = (rqs, .error .QueueAlreadyExists) := by
  simp [RQS.handle_event, apply, h]

theorem replayState_handle_event (rqs : RQS) (e : RQSEvent) (t : Nat)
    (h : replayState rqs.log = rqs.state) :
    replayState ((rqs.handle_event e t).1).log = ((rqs.handle_event e t).1).state := by
  unfold RQS.handle_event
  cases happ : apply rqs.state e t with
  | error err => simpa using h
  | ok r =>
    simp only []
    show replayState (rqs.log ++ [⟨rqs.log.length, e, t⟩]) = r.1
    unfold replayState
    rw [List.foldl_append]
    show (match apply (replayState rqs.log) e t with
          | .ok r2 => r2.1
          | .error _ => replayState rqs.log) = r.1
    rw [h, happ]

theorem runEvents_replay (l : List (RQSEvent × Nat)) :
    ∀ rqs : RQS, replayState rqs.log = rqs.state →
      replayState (runEvents rqs l).log = (runEvents rqs l).state := by
  induction l with
  | nil => intro rqs h; exact h
  | cons p rest ih =>
    intro rqs h
    exact ih ((rqs.handle_event p.1 p.2).1) (replayState_handle_event rqs p.1 p.2 h)

/-- Claim C1 (code evaluation at the failing input): against a fresh
engine, deleting the nonexistent queue_1 makes handle_event return the
QueueNotFound error, yet the delete_queue response carries success = true
with the failure text — the error arm of delete_queue (queue.rs line 64)
sets the success flag to true, contradicting the claimed failure
payload. -/
theorem c1_delete_queue_error_reports_success :
    (RQS.new.handle_event (.QueueDeleted "queue_1") 0).2 = .error .QueueNotFound ∧
    delete_queue RQS.new ⟨"queue_1"⟩ 0 =
      .ok (RQS.new,
        ⟨true, "Failed to delete queue. Failed with error: " ++ errDisplay .QueueNotFound⟩) :=
  ⟨rfl, rfl⟩

/-- Claim C2: the new_queue response is exactly the serialization of the
handle_event result of the single QueueCreated event built from the
request: success = true with data "Successfully created queue" exactly
when handle_event returns Ok, and success = false with a message carrying
the error exactly when it returns Err. -/
theorem c2_new_queue_response_matches_engine_result
    (rqs : RQS) (request : NewQueueRequest) (ts : Nat) :
    new_queue rqs request ts =
      .ok ((rqs.handle_event (.QueueCreated request.queue_id request.visibility_timeout) ts).1,
           respondNewQueue
             (rqs.handle_event (.QueueCreated request.queue_id request.visibility_timeout) ts).2) ∧
    (∀ o, respondNewQueue (.ok o) = ⟨true, "Successfully created queue"⟩) ∧
    (∀ e, respondNewQueue (.error e) =
       ⟨false, "Failed to create queue. Failed with error: " ++ errDisplay e⟩) ∧
    (∀ r, (respondNewQueue r).success = true ↔ ∃ o, r = .ok o) := by
  refine ⟨rfl, fun o => rfl, fun e => rfl, fun r => ?_⟩
  cases r <;> simp [respondNewQueue]

/-- Claim C3: each handler maps its RPC to exactly one event and one
handle_event call with the fields copied verbatim from the request:
new_queue is the serialization of the single
handle_event(QueueCreated(queue_id, visibility_timeout)) call and
delete_queue of the single handle_event(QueueDeleted(queue_id)) call. -/
theorem c3_handlers_single_event_verbatim (rqs : RQS) (ts : Nat) :
    (∀ request : NewQueueRequest,
      new_queue rqs request ts =
        .ok ((rqs.handle_event (.QueueCreated request.queue_id request.visibility_timeout) ts).1,
             respondNewQueue
               (rqs.handle_event
                 (.QueueCreated request.queue_id request.visibility_timeout) ts).2)) ∧
    (∀ request : DeleteQueueRequest,
      delete_queue rqs request ts =
        .ok ((rqs.handle_event (.QueueDeleted request.queue_id) ts).1,
             respondDeleteQueue
               (rqs.handle_event (.QueueDeleted request.queue_id) ts).2)) :=
  ⟨fun _ => rfl, fun _ => rfl⟩

/-- Claim C4: both handlers always return Ok at the transport level, for
every engine state and request; engine errors surface only inside the
response payload, never as a gRPC Status. -/
theorem c4_handlers_transport_ok (rqs : RQS) (ts : Nat) :
    (∀ request : NewQueueRequest, (new_queue rqs request ts).isOk = true) ∧
    (∀ request : DeleteQueueRequest, (delete_queue rqs request ts).isOk = true) :=
  ⟨fun _ => rfl, fun _ => rfl⟩

/-- Claim C5: recovery fidelity — for any sequence of events applied to a
fresh engine, reviving another fresh engine from the resulting log yields
the same get_queues result as the original engine. -/
theorem c5_recovery_fidelity (l : List (RQSEvent × Nat)) :
    (RQS.revive_from_log (runEvents RQS.new l).log).get_queues =
      (runEvents RQS.new l).get_queues := by
  have h := runEvents_replay l RQS.new rfl
  show (replayState (runEvents RQS.new l).log).queues = (runEvents RQS.new l).state.queues
  rw [h]

/-- Claim C6: when a queue with the given id already exists, applying
QueueCreated with that id fails with QueueAlreadyExists, the engine
(store and log) is unchanged, and the pre-existing queue still holds its
original contents. -/
theorem c6_create_existing_fails_unchanged (rqs : RQS) (qid : String)
    (q : Queue) (vt ts : Nat) (h : lookupQueue rqs.state.queues qid = some q) :
    (rqs.handle_event (.QueueCreated qid vt) ts).2 = .error .QueueAlreadyExists ∧
    (rqs.handle_event (.QueueCreated qid vt) ts).1 = rqs ∧
    lookupQueue ((rqs.handle_event (.QueueCreated qid vt) ts).1).state.queues qid = some q := by
  rw [handle_event_created_of_some rqs qid vt ts q h]
  exact ⟨rfl, rfl, h⟩

theorem c6_witness :
    lookupQueue c6Rqs.state.queues "queue_1" = some ⟨5, []⟩ ∧
    (c6Rqs.handle_event (.QueueCreated "queue_1" 7) 3).1 = c6Rqs :=
  ⟨rfl, (c6_create_existing_fails_unchanged c6Rqs "queue_1" ⟨5, []⟩ 7 3 rfl).2.1⟩

/-- Claim C9: the gateway validates nothing — for every request, including
the empty queue id and the zero visibility timeout, new_queue forwards
queue_id and visibility_timeout verbatim into the QueueCreated event with
no gateway-level check or rejection. -/
theorem c9_gateway_no_validation (rqs : RQS) (ts : Nat) :
    (∀ request : NewQueueRequest,
      new_queue rqs request ts =
        .ok ((rqs.handle_event (.QueueCreated request.queue_id request.visibility_timeout) ts).1,
             respondNewQueue
               (rqs.handle_event
                 (.QueueCreated request.queue_id request.visibility_timeout) ts).2)) ∧
    new_queue rqs ⟨"", 0⟩ ts =
      .ok ((rqs.handle_event (.QueueCreated "" 0) ts).1,
           respondNewQueue (rqs.handle_event (.QueueCreated "" 0) ts).2) :=
  ⟨fun _ => rfl, rfl⟩

/-- Claim C10: each handler response payload is a deterministic function
of the request and the handle_event result: two runs with the same
request whose handle_event results agree produce equal responses, for
both handlers. -/
theorem c10_response_deterministic (rqs1 rqs2 : RQS)
    (request : NewQueueRequest) (dreq : DeleteQueueRequest) (ts1 ts2 : Nat) :
    ((rqs1.handle_event (.QueueCreated request.queue_id request.visibility_timeout) ts1).2 =
       (rqs2.handle_event (.QueueCreated request.queue_id request.visibility_timeout) ts2).2 →
     (new_queue rqs1 request ts1).map Prod.snd =
       (new_queue rqs2 request ts2).map Prod.snd) ∧
    ((rqs1.handle_event (.QueueDeleted dreq.queue_id) ts1).2 =
       (rqs2.handle_event (.QueueDeleted dreq.queue_id) ts2).2 →
     (delete_queue rqs1 dreq ts1).map Prod.snd =
       (delete_queue rqs2 dreq ts2).map Prod.snd) := by
  constructor
  · intro h
    show Except.ok (respondNewQueue _) = Except.ok (respondNewQueue _)
    rw [h]
  · intro h
    show Except.ok (respondDeleteQueue _) = Except.ok (respondDeleteQueue _)
    rw [h]

theorem c10_witness :
    (new_queue RQS.new ⟨"queue_1", 5⟩ 0).map Prod.snd =
      (new_queue RQS.new ⟨"queue_1", 5⟩ 1).map Prod.snd :=
  (c10_response_deterministic RQS.new RQS.new ⟨"queue_1", 5⟩ ⟨"queue_1"⟩ 0 1).1 rfl

theorem lock_phase_iff {n : Nat} (act : Fin n → GatewayCall) (ts : Fin n → Nat)
    (s : SysState n) (hreach : Reachable act ts s) :
    ∀ i, s.phase i = .locked ↔ s.lockOwner = some i := by
  unfold Reachable at hreach
  induction hreach with
  | refl => intro i; simp [sysInit]
  | @tail b c hab hstep ih =>
    cases hstep with
    | acquire j _ hfree hidle =>
      intro i
      rcases eq_or_ne i j with rfl | hne
      · simp [Function.update_same]
      · show Function.update b.phase j Phase.locked i = Phase.locked ↔ some j = some i
        rw [Function.update_noteq hne]
        simp [ih i, hfree, Ne.symm hne]
    | crit j _ hown hlocked =>
      intro i
      show Function.update b.phase j Phase.finished i = Phase.locked ↔ none = some i
      rcases eq_or_ne i j with rfl | hne
      · simp [Function.update_same]
      · rw [Function.update_noteq hne]
        have h2 := ih i
        rw [hown] at h2
        simp [h2, Ne.symm hne]

theorem c7_inv {n : Nat} (rq : Fin n → NewQueueRequest) (ts : Fin n → Nat)
    (hinj : Function.Injective fun i => (rq i).queue_id)
    (s : SysState n) (hreach : Reachable (fun i => .newQueue (rq i)) ts s) :
    s.done.Nodup ∧
    (∀ i, s.phase i = .finished ↔ i ∈ s.done) ∧
    s.rqs.state.queues =
      s.done.map (fun i => ((rq i).queue_id, (⟨(rq i).visibility_timeout, []⟩ : Queue))) ∧
    (∀ i ∈ s.done, s.res i = some (.ok .unit)) := by
  unfold Reachable at hreach
  induction hreach with
  | refl =>
    refine ⟨List.nodup_nil, fun i => ?_, rfl, fun i hi => absurd hi (List.not_mem_nil i)⟩
    simp [sysInit]
  | @tail b c hab hstep ih =>
    obtain ⟨hnd, hfin, hqs, hres⟩ := ih
    cases hstep with
    | acquire j _ hfree hidle =>
      refine ⟨hnd, fun i => ?_, hqs, hres⟩
      show Function.update b.phase j Phase.locked i = Phase.finished ↔ i ∈ b.done
      rcases eq_or_ne i j with rfl | hne
      · rw [Function.update_same]
        constructor
        · intro h; exact Phase.noConfusion h
        · intro hmem
          have h2 := (hfin i).mpr hmem
          rw [hidle] at h2
          exact Phase.noConfusion h2
      · rw [Function.update_noteq hne]
        exact hfin i
    | crit j _ hown hlocked =>
      have hjnot : j ∉ b.done := by
        intro hmem
        have h2 := (hfin j).mpr hmem
        rw [hlocked] at h2
        exact Phase.noConfusion h2
      have hqid : (rq j).queue_id ∉ b.rqs.state.queues.map Prod.fst := by
        rw [hqs]
        intro hmem
        simp only [List.map_map, List.mem_map, Function.comp] at hmem
        obtain ⟨k, hk, hkeq⟩ := hmem
        exact hjnot (hinj hkeq ▸ hk)
      have hnone := (lookupQueue_eq_none _ _).mpr hqid
      have heff := handle_event_created_of_none b.rqs (rq j).queue_id
        (rq j).visibility_timeout (ts j) hnone
      refine ⟨?_, fun i => ?_, ?_, fun i hi => ?_⟩
      · simp [List.nodup_append, hnd, hjnot]
      · show Function.update b.phase j Phase.finished i = Phase.finished ↔ i ∈ b.done ++ [j]
        rcases eq_or_ne i j with rfl | hne
        · simp [Function.update_same]
        · rw [Function.update_noteq hne]
          simp [hfin i, hne]
      · show (callEffect b.rqs (GatewayCall.newQueue (rq j)) (ts j)).state.queues = _
        have hc : callEffect b.rqs (GatewayCall.newQueue (rq j)) (ts j) =
            (b.rqs.handle_event
              (.QueueCreated (rq j).queue_id (rq j).visibility_timeout) (ts j)).1 := rfl
        rw [hc, heff]
        show b.rqs.state.queues ++ [((rq j).queue_id, ⟨(rq j).visibility_timeout, []⟩)] = _
        rw [hqs, List.map_append]
        rfl
      · show Function.update b.res j (callResult b.rqs (GatewayCall.newQueue (rq j)) (ts j)) i =
          some (.ok .unit)
        rcases eq_or_ne i j with rfl | hne
        · rw [Function.update_same]
          have hc : callResult b.rqs (GatewayCall.newQueue (rq i)) (ts i) =
              some (b.rqs.handle_event
                (.QueueCreated (rq i).queue_id (rq i).visibility_timeout) (ts i)).2 := rfl
          rw [hc, heff]
        · rw [Function.update_noteq hne]
          apply hres
          rcases List.mem_append.mp hi with h | h
          · exact h
          · exact absurd (List.mem_singleton.mp h) hne

/-- Claim C7: for n concurrent create tasks with pairwise distinct queue
ids, every complete interleaving of the lock-serialized gateway ends with
every task having observed a successful handle_event result and with
get_queues holding exactly n queues, each requested id among them. -/
theorem c7_concurrent_distinct_creates {n : Nat} (rq : Fin n → NewQueueRequest)
    (ts : Fin n → Nat) (hinj : Function.Injective fun i => (rq i).queue_id)
    (s : SysState n) (hreach : Reachable (fun i => .newQueue (rq i)) ts s)
    (hfin : ∀ i, s.phase i = .finished) :
    (∀ i, s.res i = some (.ok .unit)) ∧
    s.rqs.get_queues.length = n ∧
    (∀ i, (rq i).queue_id ∈ s.rqs.get_queues.map Prod.fst) := by
  obtain ⟨hnd, hfin2, hqs, hres⟩ := c7_inv rq ts hinj s hreach
  have hmem : ∀ i, i ∈ s.done := fun i => (hfin2 i).mp (hfin i)
  have hlen : s.done.length = n := by
    have h1 : s.done.toFinset = (Finset.univ : Finset (Fin n)) :=
      Finset.eq_univ_iff_forall.mpr (fun i => List.mem_toFinset.mpr (hmem i))
    have h2 : s.done.toFinset.card = s.done.length := List.toFinset_card_of_nodup hnd
    rw [h1, Finset.card_univ, Fintype.card_fin] at h2
    exact h2.symm
  refine ⟨fun i => hres i (hmem i), ?_, fun i => ?_⟩
  · show s.rqs.state.queues.length = n
    rw [hqs, List.length_map, hlen]
  · show (rq i).queue_id ∈ s.rqs.state.queues.map Prod.fst
    rw [hqs]
    simp only [List.map_map, List.mem_map, Function.comp]
    exact ⟨i, hmem i, rfl⟩

theorem c7_witness : c7S4.rqs.get_queues.length = 2 :=
  (c7_concurrent_distinct_creates c7Rq c7Ts (by decide) c7S4
    (Relation.ReflTransGen.tail
      (Relation.ReflTransGen.tail
        (Relation.ReflTransGen.tail
          (Relation.ReflTransGen.single (Step.acquire 0 c7S0 rfl rfl))
          (Step.crit 0 c7S1 rfl rfl))
        (Step.acquire 1 c7S2 rfl rfl))
      (Step.crit 1 c7S3 rfl rfl))
    (by decide)).2.1

/-- Claim C8: mutual exclusion of the GLOBAL_DATA mutex — in every state
reachable under any interleaving of gateway tasks (mutations and
get_queues reads alike), at most one task holds the lock, so at most one
handle_event or get_queues critical section executes at a time. -/
theorem c8_mutual_exclusion {n : Nat} (act : Fin n → GatewayCall) (ts : Fin n → Nat)
    (s : SysState n) (hreach : Reachable act ts s) (i j : Fin n)
    (hi : s.phase i = .locked) (hj : s.phase j = .locked) : i = j := by
  have h := lock_phase_iff act ts s hreach
  have hi2 := (h i).mp hi
  have hj2 := (h j).mp hj
  rw [hi2] at hj2
  exact Option.some.inj hj2

theorem c8_witness : c7S1.phase 0 = Phase.locked ∧ (0 : Fin 2) = 0 :=
  ⟨rfl, c8_mutual_exclusion c7Act c7Ts c7S1
    (Relation.ReflTransGen.single (Step.acquire 0 c7S0 rfl rfl)) 0 0 rfl rfl⟩
